import Mathlib

/-!
Verification of the `extract` command-line tool's lifecycle coordinator and
argument parser (src/extract/main.cc).

The development shallowly embeds:
* `strtol` (base 10) as used by the override validation in `parse_cmd_args`;
* `parse_cmd_args` itself, including the GNU `getopt_long` behaviour it relies
  on (short option clusters, long options with optional `=value`, unique-prefix
  matching of long option names, argument permutation, `--` termination,
  missing-argument and unknown-option errors);
* the process-level control flow of `main` / `server_starter_t::on_cpu_switch`
  / `extractmain` as an event trace;
* the `run_in_loggers_fsm_t` lifecycle state machine as an event trace
  parameterised over the inline-or-deferred behaviour of the logging
  controller's activation and deactivation steps.

`log_controller_t`, `thread_pool_t`, `extract_config_t`'s declaration,
`gnew`/`gdelete` and `fail` are repository code that is not under `src/`; their
boundary behaviour is modelled from the spec where noted.
-/

namespace Extract

/-! ## The `strtol` model (base 10) -/

/-- The whitespace characters skipped by `strtol` (C `isspace`). -/
def isSpaceC (c : Char) : Bool :=
  c = ' ' || c = '\t' || c = '\n' || c = '\x0b' || c = '\x0c' || c = '\r'

/-- `LONG_MAX` on the 64-bit platform the tool targets. -/
def LONG_MAX : Int := 2 ^ 63 - 1

/-- `LONG_MIN` on the 64-bit platform the tool targets. -/
def LONG_MIN : Int := -(2 ^ 63)

/-- Out-of-range results of `strtol` are clamped to `LONG_MAX` / `LONG_MIN`. -/
def clampLong (v : Int) : Int :=
  if v > LONG_MAX then LONG_MAX else if v < LONG_MIN then LONG_MIN else v

/-- Accumulate a digit list into its base-10 value. -/
def digitsToInt (ds : List Char) : Int :=
  ds.foldl (fun acc c => acc * 10 + ((c.toNat : Int) - 48)) 0

/-- `strtol(s, &endptr, 10)`: skip leading whitespace, read an optional sign
and then a maximal digit run.  Returns the (clamped) converted value together
with the remaining characters (`endptr`).  If no digits are found, the value
is `0` and `endptr` is reset to the whole original string, as C specifies. -/
def strtol10 (s : List Char) : Int × List Char :=
  let afterWs := s.dropWhile isSpaceC
  let signBody : Bool × List Char :=
    match afterWs with
    | '-' :: cs => (true, cs)
    | '+' :: cs => (false, cs)
    | cs => (false, cs)
  let digits := signBody.2.takeWhile Char.isDigit
  let rest := signBody.2.dropWhile Char.isDigit
  if digits = [] then (0, s)
  else (clampLong (if signBody.1 then -(digitsToInt digits) else digitsToInt digits), rest)

/-! ## The configuration value -/

/-- Modelled from the spec: the default output file name is a fixed constant
(`EXTRACT_CONFIG_DEFAULT_OUTPUT_FILE`); its declaration is not under `src/`,
and no claim depends on its literal value, only on the field being equal to
this constant. -/
def EXTRACT_CONFIG_DEFAULT_OUTPUT_FILE : String := "extract_dump.txt"

/-- `extract_config_t` as used by `parse_cmd_args`.  The override fields use
`0` for "not set", matching the truthiness test
`config->overrides.extent_size && config->overrides.block_size` at
main.cc:124; the values themselves are mathematical integers (the declaration
of the struct is not under `src/`; the spec describes the overrides as
optional positive integers). -/
structure extract_config_t where
  input_file : String
  log_file : String
  output_file : String
  block_size : Int
  extent_size : Int
  mod_count : Int
deriving DecidableEq, Repr

/-- Modelled from the spec: `extract_config_t::init` (not under `src/`) gives
`input_file` empty, `log_file` unset (empty, meaning stderr), `output_file`
the fixed default constant, and no overrides set. -/
def initConfig : extract_config_t :=
  { input_file := ""
    log_file := ""
    output_file := EXTRACT_CONFIG_DEFAULT_OUTPUT_FILE
    block_size := 0
    extent_size := 0
    mod_count := 0 }

/-! ## Fatal messages

`fail(...)` (errors.hpp, not under `src/`) prints its message and terminates
the process with non-zero status (spec section 7).  We record the exact
formatted message strings from main.cc. -/

/-- main.cc:86. -/
def blockSizeMsg : String := "Block size must be a positive integer.\n"

/-- main.cc:93. -/
def extentSizeMsg : String := "Extent size must be a positive integer.\n"

/-- main.cc:100. -/
def modCountMsg : String := "The mod count must be a positive integer.\n"

/-- main.cc:115. -/
def extraArgMsg (s : String) : String :=
  "Unexpected extra argument: \"" ++ s ++ "\""

/-- main.cc:121. -/
def missingFileMsg : String := "You must explicitly specify a path with -f."

/-- main.cc:126-127, with `%d` rendered in decimal. -/
def extentMultipleMsg (e b : Int) : String :=
  "The forced extent size (" ++ toString e ++
    ") is not a multiple of the forced block size (" ++ toString b ++ ")."

/-! ## The argument parser

`parse_cmd_args` (main.cc:40-129) drives `getopt_long` with optstring
`"f:l:o:h"` and the long option table at main.cc:46-57.  We model the getopt
loop one `argv` element at a time: an option that takes its argument from the
next element leaves a pending option identifier; GNU argument permutation is
modelled by collecting non-option elements in order and reporting the first
one after the loop, exactly as the `optind < argc` check at main.cc:114 sees
them. -/

/-- The outcome of `parse_cmd_args`.  `usageExit` is `usage(argv[0])`
(main.cc:15-33), which prints the usage text and calls `exit(-1)`;
`fatal` is `fail(msg)`, which prints `msg` and terminates non-zero. -/
inductive ParseResult where
  | ok (cfg : extract_config_t)
  | usageExit
  | fatal (msg : String)
deriving DecidableEq, Repr

/-- The argument-taking options of the table (short or long spelling). -/
inductive OptId where
  | file
  | logFile
  | outputFile
  | forceBlockSize
  | forceExtentSize
  | forceModCount
deriving DecidableEq, Repr

/-- A long option is either `--help` (no argument) or an argument-taking
option. -/
inductive LongOpt where
  | help
  | takesArg (o : OptId)
deriving DecidableEq, Repr

/-- The long option table of main.cc:46-57. -/
def longTable : List (List Char × LongOpt) :=
  [("force-block-size".toList, .takesArg .forceBlockSize),
   ("force-extent-size".toList, .takesArg .forceExtentSize),
   ("force-mod-count".toList, .takesArg .forceModCount),
   ("file".toList, .takesArg .file),
   ("log-file".toList, .takesArg .logFile),
   ("output-file".toList, .takesArg .outputFile),
   ("help".toList, .help)]

/-- Split a long-option body at the first `=`: `name=value` gives
`(name, some value)`, a bare `name` gives `(name, none)`. -/
def splitAtEq : List Char → List Char × Option (List Char)
  | [] => ([], none)
  | '=' :: cs => ([], some cs)
  | c :: cs => ((splitAtEq cs).1.cons c, (splitAtEq cs).2)

/-- GNU long-option name resolution: an exact match wins; otherwise a unique
prefix match; an unknown or ambiguous name is an error (`none`). -/
def lookupLong (name : List Char) : Option LongOpt :=
  match longTable.find? (fun p => p.1 = name) with
  | some p => some p.2
  | none =>
    match longTable.filter (fun p => List.isPrefixOf name p.1) with
    | [p] => some p.2
    | _ => none

/-- How a single `argv` element is treated by the getopt loop. -/
inductive Classified where
  | dashdash
  | nonOption
  | usageNow
  | needsArg (o : OptId)
  | withArg (o : OptId) (v : String)
deriving DecidableEq, Repr

/-- Classify one `argv` element the way `getopt_long("f:l:o:h", ...)` does.
`usageNow` covers everything that makes the switch at main.cc:70-111 call
`usage`: `-h`/`--help` (via the `do_help` flag, main.cc:62-64), an unknown or
ambiguous option, an argument supplied to `--help` (all return `?` and hit the
`default:` arm at main.cc:107-109). -/
def classify (a : String) : Classified :=
  match a.toList with
  | '-' :: '-' :: [] => .dashdash
  | '-' :: '-' :: c :: cs =>
    match lookupLong (splitAtEq (c :: cs)).1 with
    | none => .usageNow
    | some .help => .usageNow
    | some (.takesArg o) =>
      match (splitAtEq (c :: cs)).2 with
      | some v => .withArg o (String.mk v)
      | none => .needsArg o
  | '-' :: c :: cs =>
    if c = 'h' then .usageNow
    else if c = 'f' then
      (if cs = [] then .needsArg .file else .withArg .file (String.mk cs))
    else if c = 'l' then
      (if cs = [] then .needsArg .logFile else .withArg .logFile (String.mk cs))
    else if c = 'o' then
      (if cs = [] then .needsArg .outputFile else .withArg .outputFile (String.mk cs))
    else .usageNow
  | _ => .nonOption

/-- Apply one dispatched option with its argument: the `switch` arms at
main.cc:73-102.  Path options assign the field; override options run the
`strtol` + `(*endptr != '\0' || value <= 0)` check and `fail` with the
field-specific message on violation. -/
def applyOpt (o : OptId) (v : String) (cfg : extract_config_t) :
    Except String extract_config_t :=
  match o with
  | .file => .ok { cfg with input_file := v }
  | .logFile => .ok { cfg with log_file := v }
  | .outputFile => .ok { cfg with output_file := v }
  | .forceBlockSize =>
    if (strtol10 v.toList).2 ≠ [] ∨ (strtol10 v.toList).1 ≤ 0 then .error blockSizeMsg
    else .ok { cfg with block_size := (strtol10 v.toList).1 }
  | .forceExtentSize =>
    if (strtol10 v.toList).2 ≠ [] ∨ (strtol10 v.toList).1 ≤ 0 then .error extentSizeMsg
    else .ok { cfg with extent_size := (strtol10 v.toList).1 }
  | .forceModCount =>
    if (strtol10 v.toList).2 ≠ [] ∨ (strtol10 v.toList).1 ≤ 0 then .error modCountMsg
    else .ok { cfg with mod_count := (strtol10 v.toList).1 }

/-- The checks after the getopt loop, main.cc:114-128: first the stray
positional argument check (`optind < argc`), then the empty `input_file`
check, then the extent/block multiple check (overrides being "set" is the
non-zero truthiness test of main.cc:124). -/
def finishParse (pos : List String) (cfg : extract_config_t) : ParseResult :=
  match pos with
  | p :: _ => .fatal (extraArgMsg p)
  | [] =>
    if cfg.input_file = "" then .fatal missingFileMsg
    else if cfg.extent_size ≠ 0 ∧ cfg.block_size ≠ 0 ∧
        cfg.extent_size % cfg.block_size ≠ 0 then
      .fatal (extentMultipleMsg cfg.extent_size cfg.block_size)
    else .ok cfg

/-- The getopt loop of main.cc:44-112, one `argv` element per step.
`pend` records an argument-taking option whose argument is the next element;
reaching the end with a pending option is getopt's missing-argument error
(`?`), which the `default:` arm turns into `usage`.  `pos` collects
permuted-away non-option elements in their original order. -/
def parseLoop : List String → Option OptId → List String → extract_config_t →
    ParseResult
  | [], some _, _, _ => .usageExit
  | [], none, pos, cfg => finishParse pos cfg
  | a :: rest, some o, pos, cfg =>
    match applyOpt o a cfg with
    | .error m => .fatal m
    | .ok cfg' => parseLoop rest none pos cfg'
  | a :: rest, none, pos, cfg =>
    match classify a with
    | .dashdash => finishParse (pos ++ rest) cfg
    | .nonOption => parseLoop rest none (pos ++ [a]) cfg
    | .usageNow => .usageExit
    | .needsArg o => parseLoop rest (some o) pos cfg
    | .withArg o v =>
      match applyOpt o v cfg with
      | .error m => .fatal m
      | .ok cfg' => parseLoop rest none pos cfg'

/-- `parse_cmd_args(argc, argv, config)` on the arguments after `argv[0]`
(getopt starts at `optind = 1`), beginning from the `config->init()` state. -/
def parseCmdArgs (args : List String) : ParseResult :=
  parseLoop args none [] initConfig

/-! ## The lifecycle coordinator `run_in_loggers_fsm_t` (main.cc:155-185)

The coordinator is embedded as an event-trace semantics.  The behaviour of the
logging controller is modelled from the spec's boundary contract (section 6;
`log_controller_t` is not under `src/`): `controller.start(cb)` returns `true`
when activation completed inline, otherwise it returns `false` and later
invokes `cb->on_logger_ready()` exactly once; `controller.shutdown(cb)`
behaves the same with `cb->on_logger_shutdown()`.  The two booleans
`aInline` / `dInline` range over these behaviours.  A deferred callback is a
pending delivery which the scheduler (the worker pool's other execution
context) performs after the requesting call returns. -/

/-- Observable events of one coordinator run.  `processExit` is `main`
returning after `thread_pool.run` (main.cc:230-232) unblocks. -/
inductive Event where
  | startCalled
  | activateReq
  | readyFired
  | taskRun
  | taskReturned
  | deactivateReq
  | shutdownFired
  | poolStopReq
  | runnerFreed
  | selfFreed
  | processExit
deriving DecidableEq, Repr

/-- A deferred controller callback awaiting delivery. -/
inductive Callback where
  | ready
  | shutdown
deriving DecidableEq, Repr

/-- `on_logger_shutdown` (main.cc:176-179): `pool->shutdown()`, then
`gdelete(this)`, whose destructor (main.cc:158-160) runs `gdelete(runner)`
before the coordinator's own storage is released. -/
def onLoggerShutdownEvents : List Event :=
  [.shutdownFired, .poolStopReq, .runnerFreed, .selfFreed]

/-- `on_logger_ready` (main.cc:168-174): run the task, then request
deactivation; if `controller.shutdown(this)` reports inline completion, call
`on_logger_shutdown` directly, otherwise leave the shutdown callback pending. -/
def onLoggerReadyRun (dInline : Bool) : List Event × Option Callback :=
  if dInline then
    ([.readyFired, .taskRun, .taskReturned, .deactivateReq] ++
      onLoggerShutdownEvents, none)
  else ([.readyFired, .taskRun, .taskReturned, .deactivateReq], some .shutdown)

/-- `start` (main.cc:162-166): request activation; if `controller.start(this)`
reports inline completion, call `on_logger_ready` directly, otherwise leave
the readiness callback pending. -/
def startRun (aInline dInline : Bool) : List Event × Option Callback :=
  if aInline then
    ([.startCalled, .activateReq] ++ (onLoggerReadyRun dInline).1,
      (onLoggerReadyRun dInline).2)
  else ([.startCalled, .activateReq], some .ready)

/-- Deliver one deferred controller callback. -/
def deliver (cb : Callback) (dInline : Bool) : List Event × Option Callback :=
  match cb with
  | .ready => onLoggerReadyRun dInline
  | .shutdown => (onLoggerShutdownEvents, none)

/-- Drain pending deferred callbacks (each fires exactly once, per the spec's
controller contract); `fuel` bounds the number of deliveries and `2`
suffices for every behaviour. -/
def drain : Nat → Option Callback → Bool → List Event
  | _, none, _ => []
  | 0, some _, _ => []
  | n + 1, some cb, dInline =>
    (deliver cb dInline).1 ++ drain n (deliver cb dInline).2 dInline

/-- One complete coordinator run: `start()` is called on the coordinator, all
deferred callbacks are delivered, the pool's blocking `run` returns and the
process exits. -/
def runCoordinator (aInline dInline : Bool) : List Event :=
  (startRun aInline dInline).1 ++
    drain 2 (startRun aInline dInline).2 dInline ++ [.processExit]

/-! ## The process-level control flow (main.cc:131-137 and 200-233)

`main` installs the SEGV handler, creates a one-worker `thread_pool_t` and
runs it on the `server_starter_t` message; `on_cpu_switch` (main.cc:217-221)
constructs the `runner` and the `run_in_loggers_fsm_t` and calls `start()`;
once the loggers are ready the task runs `extractmain` (main.cc:133-137),
which calls `parse_cmd_args` and then `dumpfile(cfg)`.  `usage` calls
`exit(-1)` (status 255); `fail` terminates with a non-zero status, modelled
from the spec (section 7) as exit code 1 since `errors.hpp` is not under
`src/`.  Normal completion returns 0 from `main`. -/

/-- Observable process-level events. -/
inductive PEvent where
  | segvHandlerInstalled
  | poolCreated
  | starterDispatched
  | runnerConstructed
  | fsmConstructed
  | startCalled
  | parseStarted
  | usagePrinted
  | fatalReported (msg : String)
  | dumpfileCalled
  | exitProcess (code : Int)
deriving DecidableEq, Repr

/-- The event trace of one whole process execution on the given command-line
arguments (after `argv[0]`).  The pool dispatches the starter message, the
lifecycle objects are constructed and the coordinator started before parsing
begins; the parse outcome then decides the tail of the trace. -/
def programTrace (args : List String) : List PEvent :=
  [.segvHandlerInstalled, .poolCreated, .starterDispatched,
   .runnerConstructed, .fsmConstructed, .startCalled, .parseStarted] ++
  match parseCmdArgs args with
  | .ok _ => [.dumpfileCalled, .exitProcess 0]
  | .usageExit => [.usagePrinted, .exitProcess 255]
  | .fatal m => [.fatalReported m, .exitProcess 1]

/-- An override value string passes the check at main.cc:85 (equivalently
main.cc:92 and main.cc:99): base-10 `strtol` consumes the whole string and
the converted value is strictly positive. -/
def isValidOverride (s : String) : Bool :=
  (strtol10 s.toList).2.isEmpty && decide (0 < (strtol10 s.toList).1)

/-- The three path-valued options: the `switch` arms at main.cc:73-81 that
assign a string field and can never fail. -/
def pathOpts : List OptId := [OptId.file, OptId.logFile, OptId.outputFile]

/-- The assignment performed by a path option's `switch` arm
(main.cc:74/77/80); identity on the non-path options. -/
def setPath (o : OptId) (v : String) (cfg : extract_config_t) :
    extract_config_t :=
  match o with
  | .file => { cfg with input_file := v }
  | .logFile => { cfg with log_file := v }
  | .outputFile => { cfg with output_file := v }
  | _ => cfg

/-- The config field written by a path option (empty for non-path options,
which write no string field). -/
def pathProj (o : OptId) (cfg : extract_config_t) : String :=
  match o with
  | .file => cfg.input_file
  | .logFile => cfg.log_file
  | .outputFile => cfg.output_file
  | _ => ""

/-- The arguments assigned to the option `sel` by the getopt loop, in
processing order: one entry per occurrence of the option's flag in any
spelling — separate argument (`-f v`, `--file v`, unique prefix), attached
short argument (`-fv`), or `--file=v`.  Mirrors the loop of `parseLoop`:
collection stops at `--`, at `-h`/`--help` and at option errors, where the
loop stops consuming options. -/
def pathWrites (sel : OptId) : List String → Option OptId → List String
  | [], _ => []
  | a :: rest, some o =>
    (if o = sel then [a] else []) ++ pathWrites sel rest none
  | a :: rest, none =>
    match classify a with
    | .dashdash => []
    | .nonOption => pathWrites sel rest none
    | .usageNow => []
    | .needsArg o => pathWrites sel rest (some o)
    | .withArg o v => (if o = sel then [v] else []) ++ pathWrites sel rest none

/-! ## Helper lemmas -/

theorem finishParse_ok {pos : List String} {cfg cfg' : extract_config_t}
    (h : finishParse pos cfg = .ok cfg') : cfg' = cfg ∧ cfg.input_file ≠ "" := by
  cases pos with
  | cons p l => simp [finishParse] at h
  | nil =>
    simp only [finishParse] at h
    split_ifs at h with h1 h2
    exact ⟨(ParseResult.ok.inj h).symm, h1⟩

theorem parseLoop_ok_input_file :
    ∀ (args : List String) (pend : Option OptId) (pos : List String)
      (cfg cfg' : extract_config_t),
      parseLoop args pend pos cfg = .ok cfg' → cfg'.input_file ≠ "" := by
  intro args
  induction args with
  | nil =>
    intro pend pos cfg cfg' h
    cases pend with
    | some o => simp [parseLoop] at h
    | none =>
      obtain ⟨h1, h2⟩ := finishParse_ok h
      subst h1
      exact h2
  | cons a rest ih =>
    intro pend pos cfg cfg' h
    cases pend with
    | some o =>
      rw [parseLoop] at h
      split at h
      · simp at h
      · exact ih none pos _ cfg' h
    | none =>
      rw [parseLoop] at h
      split at h
      · obtain ⟨h1, h2⟩ := finishParse_ok h
        subst h1
        exact h2
      · exact ih none (pos ++ [a]) cfg cfg' h
      · simp at h
      · exact ih (some _) pos cfg cfg' h
      · split at h
        · simp at h
        · exact ih none pos _ cfg' h

theorem invalid_override_cond (s : String) (h : isValidOverride s = false) :
    (strtol10 s.toList).2 ≠ [] ∨ (strtol10 s.toList).1 ≤ 0 := by
  by_contra hc
  push_neg at hc
  obtain ⟨hc1, hc2⟩ := hc
  rw [isValidOverride, hc1] at h
  simp only [List.isEmpty_nil, Bool.true_and, decide_eq_false_iff_not, not_lt] at h
  omega

theorem applyOpt_block_invalid (s : String) (cfg : extract_config_t)
    (h : isValidOverride s = false) :
    applyOpt .forceBlockSize s cfg = .error blockSizeMsg := by
  simp only [applyOpt]
  rw [if_pos (invalid_override_cond s h)]

theorem applyOpt_extent_invalid (s : String) (cfg : extract_config_t)
    (h : isValidOverride s = false) :
    applyOpt .forceExtentSize s cfg = .error extentSizeMsg := by
  simp only [applyOpt]
  rw [if_pos (invalid_override_cond s h)]

theorem applyOpt_mod_invalid (s : String) (cfg : extract_config_t)
    (h : isValidOverride s = false) :
    applyOpt .forceModCount s cfg = .error modCountMsg := by
  simp only [applyOpt]
  rw [if_pos (invalid_override_cond s h)]

theorem applyOpt_block_valid (s : String) (cfg : extract_config_t) (b : Int)
    (hs : strtol10 s.toList = (b, [])) (hb : 0 < b) :
    applyOpt .forceBlockSize s cfg = .ok { cfg with block_size := b } := by
  simp only [applyOpt, hs]
  rw [if_neg]
  push_neg
  exact ⟨rfl, hb⟩

theorem applyOpt_extent_valid (s : String) (cfg : extract_config_t) (e : Int)
    (hs : strtol10 s.toList = (e, [])) (he : 0 < e) :
    applyOpt .forceExtentSize s cfg = .ok { cfg with extent_size := e } := by
  simp only [applyOpt, hs]
  rw [if_neg]
  push_neg
  exact ⟨rfl, he⟩

theorem parseLoop_needsArg_step (a : String) (o : OptId) (rest pos : List String)
    (cfg : extract_config_t) (hc : classify a = .needsArg o) :
    parseLoop (a :: rest) none pos cfg = parseLoop rest (some o) pos cfg := by
  rw [parseLoop, hc]

theorem parseLoop_pending_err (o : OptId) (a : String) (rest pos : List String)
    (cfg : extract_config_t) (m : String) (ha : applyOpt o a cfg = .error m) :
    parseLoop (a :: rest) (some o) pos cfg = .fatal m := by
  rw [parseLoop, ha]

theorem parseLoop_pending_ok (o : OptId) (a : String) (rest pos : List String)
    (cfg cfg' : extract_config_t) (ha : applyOpt o a cfg = .ok cfg') :
    parseLoop (a :: rest) (some o) pos cfg = parseLoop rest none pos cfg' := by
  rw [parseLoop, ha]

theorem applyOpt_path (o : OptId) (ho : o ∈ pathOpts) (v : String)
    (cfg : extract_config_t) :
    applyOpt o v cfg = Except.ok (setPath o v cfg) := by
  fin_cases ho <;> rfl

theorem pathProj_applyOpt (sel : OptId) (hsel : sel ∈ pathOpts) (o : OptId)
    (v : String) (cfg c2 : extract_config_t)
    (h : applyOpt o v cfg = Except.ok c2) :
    pathProj sel c2 = if o = sel then v else pathProj sel cfg := by
  cases o <;> simp only [applyOpt] at h
  case file =>
    cases Except.ok.inj h
    fin_cases hsel <;> simp [pathProj]
  case logFile =>
    cases Except.ok.inj h
    fin_cases hsel <;> simp [pathProj]
  case outputFile =>
    cases Except.ok.inj h
    fin_cases hsel <;> simp [pathProj]
  case forceBlockSize =>
    split_ifs at h
    cases Except.ok.inj h
    fin_cases hsel <;> simp [pathProj]
  case forceExtentSize =>
    split_ifs at h
    cases Except.ok.inj h
    fin_cases hsel <;> simp [pathProj]
  case forceModCount =>
    split_ifs at h
    cases Except.ok.inj h
    fin_cases hsel <;> simp [pathProj]

theorem parseLoop_ok_lastWrite (sel : OptId) (hsel : sel ∈ pathOpts) :
    ∀ (args : List String) (pend : Option OptId) (pos : List String)
      (cfg cfg' : extract_config_t),
      parseLoop args pend pos cfg = ParseResult.ok cfg' →
      pathProj sel cfg' = (pathWrites sel args pend).getLastD
        (pathProj sel cfg) := by
  intro args
  induction args with
  | nil =>
    intro pend pos cfg cfg' h
    cases pend with
    | some o => simp [parseLoop] at h
    | none =>
      obtain ⟨h1, _⟩ := finishParse_ok h
      subst h1
      simp [pathWrites]
  | cons a rest ih =>
    intro pend pos cfg cfg' h
    cases pend with
    | some o =>
      cases ho : applyOpt o a cfg with
      | error m => simp [parseLoop, ho] at h
      | ok c2 =>
        simp only [parseLoop, ho] at h
        have hw := ih none pos c2 cfg' h
        have hp := pathProj_applyOpt sel hsel o a cfg c2 ho
        simp only [pathWrites]
        by_cases hos : o = sel
        · subst hos
          simp only [eq_self_iff_true, if_true] at hp ⊢
          rw [List.singleton_append, List.getLastD_cons, hw, hp]
        · rw [if_neg hos]
          simp only [List.nil_append]
          rw [hw, hp, if_neg hos]
    | none =>
      cases hc : classify a with
      | dashdash =>
        simp only [parseLoop, hc] at h
        obtain ⟨h1, _⟩ := finishParse_ok h
        subst h1
        simp [pathWrites, hc]
      | nonOption =>
        simp only [parseLoop, hc] at h
        rw [ih none (pos ++ [a]) cfg cfg' h]
        simp [pathWrites, hc]
      | usageNow => simp [parseLoop, hc] at h
      | needsArg o =>
        simp only [parseLoop, hc] at h
        rw [ih (some o) pos cfg cfg' h]
        simp [pathWrites, hc]
      | withArg o v =>
        cases ho : applyOpt o v cfg with
        | error m => simp [parseLoop, hc, ho] at h
        | ok c2 =>
          simp only [parseLoop, hc, ho] at h
          have hw := ih none pos c2 cfg' h
          have hp := pathProj_applyOpt sel hsel o v cfg c2 ho
          simp only [pathWrites, hc]
          by_cases hos : o = sel
          · subst hos
            simp only [eq_self_iff_true, if_true] at hp ⊢
            rw [List.singleton_append, List.getLastD_cons, hw, hp]
          · rw [if_neg hos]
            simp only [List.nil_append]
            rw [hw, hp, if_neg hos]

/-! ## Claim theorems -/

/-- C1: for every coordinator instance and every behaviour of the
logging-activation facility — `controller.start` reporting inline completion
(`aInline = true`) or deferring its readiness callback, which then fires
exactly once (`aInline = false`), and likewise for deactivation — a call to
`start()` leads to exactly one invocation of the on-ready transition
`on_logger_ready`: never zero, never more than one. -/
theorem C1_on_ready_fires_exactly_once :
    ∀ aInline dInline : Bool,
      (runCoordinator aInline dInline).count Event.readyFired = 1 := by
  decide

/-- C2: in every execution of the lifecycle coordinator the events are
strictly ordered: logger readiness precedes the task's `run()` invocation,
the return of `run()` precedes the deactivation request
(`controller.shutdown`), completion of deactivation (`on_logger_shutdown`)
precedes the pool-stop request (`pool->shutdown()`), and the pool-stop
request precedes process exit. -/
theorem C2_lifecycle_strict_ordering :
    ∀ aInline dInline : Bool,
      Event.readyFired ∈ runCoordinator aInline dInline ∧
      Event.taskRun ∈ runCoordinator aInline dInline ∧
      Event.taskReturned ∈ runCoordinator aInline dInline ∧
      Event.deactivateReq ∈ runCoordinator aInline dInline ∧
      Event.shutdownFired ∈ runCoordinator aInline dInline ∧
      Event.poolStopReq ∈ runCoordinator aInline dInline ∧
      Event.processExit ∈ runCoordinator aInline dInline ∧
      (runCoordinator aInline dInline).indexOf Event.readyFired <
        (runCoordinator aInline dInline).indexOf Event.taskRun ∧
      (runCoordinator aInline dInline).indexOf Event.taskReturned <
        (runCoordinator aInline dInline).indexOf Event.deactivateReq ∧
      (runCoordinator aInline dInline).indexOf Event.shutdownFired <
        (runCoordinator aInline dInline).indexOf Event.poolStopReq ∧
      (runCoordinator aInline dInline).indexOf Event.poolStopReq <
        (runCoordinator aInline dInline).indexOf Event.processExit := by
  decide

/-- C3: for every coordinator instance and controller behaviour, after the
on-shutdown transition fires, the pool-stop request is issued exactly once
and the owned runner is freed exactly once (no leak, no double release); the
coordinator frees itself afterward, and after its self-release the only
remaining event is the process exit — no further method is called on it. -/
theorem C3_shutdown_stop_and_release_once :
    ∀ aInline dInline : Bool,
      (runCoordinator aInline dInline).count Event.poolStopReq = 1 ∧
      (runCoordinator aInline dInline).count Event.runnerFreed = 1 ∧
      (runCoordinator aInline dInline).count Event.selfFreed = 1 ∧
      (runCoordinator aInline dInline).indexOf Event.shutdownFired <
        (runCoordinator aInline dInline).indexOf Event.poolStopReq ∧
      (runCoordinator aInline dInline).indexOf Event.poolStopReq <
        (runCoordinator aInline dInline).indexOf Event.selfFreed ∧
      (runCoordinator aInline dInline).indexOf Event.runnerFreed <
        (runCoordinator aInline dInline).indexOf Event.selfFreed ∧
      ((runCoordinator aInline dInline).dropWhile
          (fun e => e != Event.selfFreed)).tail = [Event.processExit] := by
  decide

/-- C4 (counterexample): the claim "for every argument list containing the
help flag anywhere, the usage text is printed, the process terminates
non-zero, and no TaskRunner or LifecycleCoordinator is ever constructed" is
false on the code.  At `["-h"]` the `runner` and the `run_in_loggers_fsm_t`
ARE constructed (`on_cpu_switch` runs before parsing); and at `["-f", "-h"]`
the element `-h` is consumed by getopt as the argument of `-f`, so no usage
text is printed, the extraction engine runs, and the process exits zero. -/
theorem C4_counterexample :
    ("-h" ∈ (["-h"] : List String) ∧
      PEvent.runnerConstructed ∈ programTrace ["-h"] ∧
      PEvent.fsmConstructed ∈ programTrace ["-h"]) ∧
    ("-h" ∈ (["-f", "-h"] : List String) ∧
      PEvent.usagePrinted ∉ programTrace ["-f", "-h"] ∧
      PEvent.dumpfileCalled ∈ programTrace ["-f", "-h"] ∧
      PEvent.exitProcess 0 ∈ programTrace ["-f", "-h"]) := by
  decide

/-- C4 (amended): the TaskRunner and the coordinator are constructed for
every argument list (before parsing begins); whenever parsing reaches the
help flag as an option (`parse_cmd_args` yields the usage exit), the usage
text is printed, the extraction engine is never invoked, and the process
exits non-zero. -/
theorem C4_help_usage_exit (args : List String) :
    PEvent.runnerConstructed ∈ programTrace args ∧
    PEvent.fsmConstructed ∈ programTrace args ∧
    (parseCmdArgs args = ParseResult.usageExit →
      PEvent.usagePrinted ∈ programTrace args ∧
      PEvent.dumpfileCalled ∉ programTrace args ∧
      ∀ c : Int, PEvent.exitProcess c ∈ programTrace args → c ≠ 0) := by
  refine ⟨?_, ?_, ?_⟩
  · simp only [programTrace]
    cases parseCmdArgs args <;> simp
  · simp only [programTrace]
    cases parseCmdArgs args <;> simp
  · intro h
    simp only [programTrace, h]
    refine ⟨by simp, by simp, ?_⟩
    intro c hc
    simp at hc
    omega

/-- Witness for C4: at `["-h"]` the hypothesis holds and usage is printed. -/
theorem C4_help_usage_exit_w :
    PEvent.usagePrinted ∈ programTrace ["-h"] ∧
    PEvent.dumpfileCalled ∉ programTrace ["-h"] :=
  ⟨((C4_help_usage_exit ["-h"]).2.2 (by decide)).1,
   ((C4_help_usage_exit ["-h"]).2.2 (by decide)).2.1⟩

/-- C5 (counterexample): the claim's conjunct "the coordinator is never
started" is false: on `["--force-block-size", "abc", "-f", "x"]` the
override string is invalid and parsing fails with the block-size message,
yet the coordinator's `start()` has already been called, because
`parse_cmd_args` runs inside the pool-hosted task that the coordinator
sequences. -/
theorem C5_counterexample :
    isValidOverride "abc" = false ∧
    parseCmdArgs ["--force-block-size", "abc", "-f", "x"] =
      ParseResult.fatal blockSizeMsg ∧
    PEvent.startCalled ∈ programTrace ["--force-block-size", "abc", "-f", "x"] ∧
    (programTrace ["--force-block-size", "abc", "-f", "x"]).indexOf
        PEvent.startCalled <
      (programTrace ["--force-block-size", "abc", "-f", "x"]).indexOf
        (PEvent.fatalReported blockSizeMsg) := by
  decide

/-- C5 (amended): for every override argument string that is not a
syntactically valid positive integer, parsing fails at that option with the
fatal validation message naming the offending field (for any parser state
reaching the option), and on any fatally-failing argument list the extraction
engine is never invoked — though the coordinator has already been constructed
and started, since parsing runs inside the pool-hosted task. -/
theorem C5_invalid_override_fatal (s : String) (rest pos : List String)
    (cfg : extract_config_t) (h : isValidOverride s = false) :
    parseLoop ("--force-block-size" :: s :: rest) none pos cfg =
      ParseResult.fatal blockSizeMsg ∧
    parseLoop ("--force-extent-size" :: s :: rest) none pos cfg =
      ParseResult.fatal extentSizeMsg ∧
    parseLoop ("--force-mod-count" :: s :: rest) none pos cfg =
      ParseResult.fatal modCountMsg ∧
    ∀ args m, parseCmdArgs args = ParseResult.fatal m →
      programTrace args =
        [PEvent.segvHandlerInstalled, PEvent.poolCreated,
         PEvent.starterDispatched, PEvent.runnerConstructed,
         PEvent.fsmConstructed, PEvent.startCalled, PEvent.parseStarted,
         PEvent.fatalReported m, PEvent.exitProcess 1] := by
  refine ⟨?_, ?_, ?_, ?_⟩
  · rw [parseLoop_needsArg_step "--force-block-size" OptId.forceBlockSize
        (s :: rest) pos cfg (by decide),
      parseLoop_pending_err OptId.forceBlockSize s rest pos cfg blockSizeMsg
        (applyOpt_block_invalid s cfg h)]
  · rw [parseLoop_needsArg_step "--force-extent-size" OptId.forceExtentSize
        (s :: rest) pos cfg (by decide),
      parseLoop_pending_err OptId.forceExtentSize s rest pos cfg extentSizeMsg
        (applyOpt_extent_invalid s cfg h)]
  · rw [parseLoop_needsArg_step "--force-mod-count" OptId.forceModCount
        (s :: rest) pos cfg (by decide),
      parseLoop_pending_err OptId.forceModCount s rest pos cfg modCountMsg
        (applyOpt_mod_invalid s cfg h)]
  · intro args m hm
    simp [programTrace, hm]

/-- Witness for C5: at `s = "abc"` the invalidity hypothesis holds and the
parse fails with the block-size message. -/
theorem C5_invalid_override_fatal_w :
    isValidOverride "abc" = false ∧
    parseCmdArgs ["--force-block-size", "abc"] = ParseResult.fatal blockSizeMsg :=
  ⟨by decide, (C5_invalid_override_fatal "abc" [] [] initConfig (by decide)).1⟩

/-- C6 (counterexample): the claim's conjunct "before any worker-pool work
begins" is false: on Scenario B's arguments the pool has already dispatched
the starter message (and the coordinator has been started) before the
validation failure is reported, because parsing runs inside the pool-hosted
task. -/
theorem C6_counterexample :
    PEvent.starterDispatched ∈
      programTrace ["--force-block-size", "512", "--force-extent-size", "1000",
        "-f", "x"] ∧
    (programTrace ["--force-block-size", "512", "--force-extent-size", "1000",
        "-f", "x"]).indexOf PEvent.starterDispatched <
      (programTrace ["--force-block-size", "512", "--force-extent-size", "1000",
        "-f", "x"]).indexOf (PEvent.fatalReported (extentMultipleMsg 1000 512)) ∧
    parseCmdArgs ["--force-block-size", "512", "--force-extent-size", "1000",
        "-f", "x"] = ParseResult.fatal (extentMultipleMsg 1000 512) := by
  decide

/-- C6 (amended): for all positive integers `b`, `e` with `e mod b ≠ 0`
(supplied as the strings `sb`, `se` that `strtol` converts to them), passing
both overrides together with a non-empty `-f` path makes parsing fail with
the fatal message citing both values (both decimal renderings occur in the
message); the extraction engine is never invoked and the process exits
non-zero — the failure occurring inside the pool-hosted task. -/
theorem C6_extent_not_multiple_fatal (sb se f : String) (b e : Int)
    (hsb : strtol10 sb.toList = (b, [])) (hb : 0 < b)
    (hse : strtol10 se.toList = (e, [])) (he : 0 < e)
    (hmod : e % b ≠ 0) (hf : f ≠ "") :
    parseCmdArgs ["--force-block-size", sb, "--force-extent-size", se, "-f", f] =
      ParseResult.fatal (extentMultipleMsg e b) ∧
    (toString e).toList <:+: (extentMultipleMsg e b).toList ∧
    (toString b).toList <:+: (extentMultipleMsg e b).toList ∧
    PEvent.dumpfileCalled ∉
      programTrace ["--force-block-size", sb, "--force-extent-size", se, "-f", f] ∧
    ∀ c : Int,
      PEvent.exitProcess c ∈
          programTrace ["--force-block-size", sb, "--force-extent-size", se,
            "-f", f] →
        c ≠ 0 := by
  have hparse : parseCmdArgs
      ["--force-block-size", sb, "--force-extent-size", se, "-f", f] =
      ParseResult.fatal (extentMultipleMsg e b) := by
    unfold parseCmdArgs
    rw [parseLoop_needsArg_step "--force-block-size" OptId.forceBlockSize
        (sb :: "--force-extent-size" :: se :: "-f" :: [f]) [] initConfig
        (by decide)]
    rw [parseLoop_pending_ok OptId.forceBlockSize sb
        ("--force-extent-size" :: se :: "-f" :: [f]) [] initConfig
        { initConfig with block_size := b }
        (applyOpt_block_valid sb initConfig b hsb hb)]
    rw [parseLoop_needsArg_step "--force-extent-size" OptId.forceExtentSize
        (se :: "-f" :: [f]) [] { initConfig with block_size := b } (by decide)]
    rw [parseLoop_pending_ok OptId.forceExtentSize se ("-f" :: [f]) []
        { initConfig with block_size := b }
        { initConfig with block_size := b, extent_size := e }
        (applyOpt_extent_valid se { initConfig with block_size := b } e hse he)]
    rw [parseLoop_needsArg_step "-f" OptId.file [f] []
        { initConfig with block_size := b, extent_size := e } (by decide)]
    rw [parseLoop_pending_ok OptId.file f [] []
        { initConfig with block_size := b, extent_size := e }
        { initConfig with block_size := b, extent_size := e, input_file := f }
        rfl]
    rw [parseLoop]
    simp only [finishParse]
    rw [if_neg hf, if_pos ⟨he.ne', hb.ne', hmod⟩]
  refine ⟨hparse, ?_, ?_, ?_, ?_⟩
  · refine ⟨"The forced extent size (".toList,
      ((") is not a multiple of the forced block size (" : String) ++
        toString b ++ ").").toList, ?_⟩
    simp [extentMultipleMsg, String.toList]
  · refine ⟨(("The forced extent size (" : String) ++ toString e ++
      ") is not a multiple of the forced block size (").toList,
      ").".toList, ?_⟩
    simp [extentMultipleMsg, String.toList]
  · simp [programTrace, hparse]
  · intro c hc
    simp only [programTrace, hparse] at hc
    simp at hc
    omega

/-- Witness for C6: `b = 512`, `e = 1000` via the strings `"512"` and
`"1000"`; the parse fails with the message citing both. -/
theorem C6_extent_not_multiple_fatal_w :
    strtol10 "512".toList = (512, []) ∧
    strtol10 "1000".toList = (1000, []) ∧
    (1000 : Int) % 512 ≠ 0 ∧
    parseCmdArgs ["--force-block-size", "512", "--force-extent-size", "1000",
        "-f", "x"] = ParseResult.fatal (extentMultipleMsg 1000 512) :=
  ⟨by decide, by decide, by decide,
    (C6_extent_not_multiple_fatal "512" "1000" "x" 512 1000 (by decide)
      (by decide) (by decide) (by decide) (by decide) (by decide)).1⟩

/-- C7: for the argument list `["-f", "data.bin"]`, parsing succeeds and
produces a config with `input_file = "data.bin"`, `output_file` equal to the
fixed default constant, `log_file` unset (meaning stderr), and no
block-size/extent-size/mod-count overrides set. -/
theorem C7_scenario_a_defaults :
    parseCmdArgs ["-f", "data.bin"] =
      ParseResult.ok
        { input_file := "data.bin"
          log_file := ""
          output_file := EXTRACT_CONFIG_DEFAULT_OUTPUT_FILE
          block_size := 0
          extent_size := 0
          mod_count := 0 } := by
  decide

/-- C8: whenever `parse_cmd_args` returns normally, `input_file` is
non-empty; in particular `["-f", ""]` fails with the same fatal
"must explicitly specify a path with -f" message as omitting `-f` entirely,
even though the `-f` flag was present. -/
theorem C8_ok_implies_input_file_nonempty :
    (∀ args cfg, parseCmdArgs args = ParseResult.ok cfg →
      cfg.input_file ≠ "") ∧
    parseCmdArgs ["-f", ""] = ParseResult.fatal missingFileMsg ∧
    parseCmdArgs [] = ParseResult.fatal missingFileMsg := by
  refine ⟨?_, by decide, by decide⟩
  intro args cfg h
  exact parseLoop_ok_input_file args none [] initConfig cfg h

/-- Witness for C8: at `["-f", "x"]` the parse returns normally and the
resulting `input_file` is non-empty. -/
theorem C8_ok_implies_input_file_nonempty_w :
    ({ input_file := "x"
       log_file := ""
       output_file := EXTRACT_CONFIG_DEFAULT_OUTPUT_FILE
       block_size := 0
       extent_size := 0
       mod_count := 0 } : extract_config_t).input_file ≠ "" :=
  C8_ok_implies_input_file_nonempty.1 ["-f", "x"]
    { input_file := "x"
      log_file := ""
      output_file := EXTRACT_CONFIG_DEFAULT_OUTPUT_FILE
      block_size := 0
      extent_size := 0
      mod_count := 0 } (by decide)

/-- C9: for every argument list in which a path flag (`-f`/`--file`,
`-l`/`--log-file`, `-o`/`--output-file`) appears more than once — in any
spelling, at any positions, separated or not — the resulting config field
equals the argument of the last occurrence: whenever parsing returns
normally, each path field is the last entry of the in-order list of that
flag's occurrence arguments (`pathWrites`), falling back to the `init`
default when the flag never occurs.  Moreover repetition never makes parsing
fail: at every reachable parser state, an occurrence of a path flag (in the
separate-argument form or in the attached/`=` form) merely overwrites the
field and parsing continues as from the overwritten state. -/
theorem C9_repeated_path_flag_last_wins :
    (∀ (args : List String) (cfg' : extract_config_t),
      parseCmdArgs args = ParseResult.ok cfg' →
        cfg'.input_file =
          (pathWrites OptId.file args none).getLastD initConfig.input_file ∧
        cfg'.log_file =
          (pathWrites OptId.logFile args none).getLastD initConfig.log_file ∧
        cfg'.output_file =
          (pathWrites OptId.outputFile args none).getLastD
            initConfig.output_file) ∧
    (∀ o, o ∈ pathOpts → ∀ (g v : String) (rest pos : List String)
        (cfg : extract_config_t), classify g = Classified.needsArg o →
      parseLoop (g :: v :: rest) none pos cfg =
        parseLoop rest none pos (setPath o v cfg)) ∧
    (∀ o, o ∈ pathOpts → ∀ (g v : String) (rest pos : List String)
        (cfg : extract_config_t), classify g = Classified.withArg o v →
      parseLoop (g :: rest) none pos cfg =
        parseLoop rest none pos (setPath o v cfg)) := by
  refine ⟨?_, ?_, ?_⟩
  · intro args cfg' h
    exact ⟨parseLoop_ok_lastWrite OptId.file (by decide) args none []
        initConfig cfg' h,
      parseLoop_ok_lastWrite OptId.logFile (by decide) args none []
        initConfig cfg' h,
      parseLoop_ok_lastWrite OptId.outputFile (by decide) args none []
        initConfig cfg' h⟩
  · intro o ho g v rest pos cfg hg
    rw [parseLoop_needsArg_step g o (v :: rest) pos cfg hg,
      parseLoop_pending_ok o v rest pos cfg (setPath o v cfg)
        (applyOpt_path o ho v cfg)]
  · intro o ho g v rest pos cfg hg
    simp only [parseLoop, hg, applyOpt_path o ho v cfg]

/-- Witness for C9: on `["-o", "out", "-f", "a", "--file=b"]` — two
occurrences of the input-file flag, at non-initial positions, separated by
another option, the second in `--file=b` form — the parse succeeds and
`input_file` equals the last occurrence's argument. -/
theorem C9_repeated_path_flag_last_wins_w :
    ({ input_file := "b", log_file := "", output_file := "out",
       block_size := 0, extent_size := 0, mod_count := 0 } :
        extract_config_t).input_file =
      (pathWrites OptId.file ["-o", "out", "-f", "a", "--file=b"]
        none).getLastD initConfig.input_file :=
  (C9_repeated_path_flag_last_wins.1 ["-o", "out", "-f", "a", "--file=b"]
    { input_file := "b", log_file := "", output_file := "out",
      block_size := 0, extent_size := 0, mod_count := 0 } (by decide)).1

/-- C10: an override argument string is accepted exactly when base-10
`strtol` consumes the entire string and the converted value is strictly
positive; in particular `" 42"` (leading whitespace) and `"+5"` (leading
plus sign) are accepted, setting the override to `42` and `5`. -/
theorem C10_override_acceptance :
    (∀ (s : String) (cfg : extract_config_t),
      (∃ cfg', applyOpt OptId.forceBlockSize s cfg = Except.ok cfg') ↔
        ((strtol10 s.toList).2 = [] ∧ 0 < (strtol10 s.toList).1)) ∧
    strtol10 " 42".toList = (42, []) ∧
    (∀ cfg : extract_config_t,
      applyOpt OptId.forceBlockSize " 42" cfg =
        Except.ok { cfg with block_size := 42 }) ∧
    strtol10 "+5".toList = (5, []) ∧
    (∀ cfg : extract_config_t,
      applyOpt OptId.forceBlockSize "+5" cfg =
        Except.ok { cfg with block_size := 5 }) := by
  refine ⟨?_, by decide, ?_, by decide, ?_⟩
  · intro s cfg
    constructor
    · rintro ⟨cfg', hc⟩
      by_contra hn
      have hcond : (strtol10 s.toList).2 ≠ [] ∨ (strtol10 s.toList).1 ≤ 0 := by
        rcases not_and_or.mp hn with hx | hx
        · exact Or.inl hx
        · exact Or.inr (not_lt.mp hx)
      simp only [applyOpt] at hc
      rw [if_pos hcond] at hc
      exact Except.noConfusion hc
    · intro hv
      refine ⟨{ cfg with block_size := (strtol10 s.toList).1 }, ?_⟩
      simp only [applyOpt]
      rw [if_neg]
      push_neg
      exact ⟨hv.1, hv.2⟩
  · intro cfg
    exact applyOpt_block_valid " 42" cfg 42 (by decide) (by decide)
  · intro cfg
    exact applyOpt_block_valid "+5" cfg 5 (by decide) (by decide)

end Extract
